import Mathlib

/-!
Verification of the Windows registration shim of the flutter_app_updater
repository.  The provided sources are:

* `windows/flutter_app_updater_plugin.h` — declaration of the class
  `FlutterAppUpdaterPlugin` (static `RegisterWithRegistrar`, a public default
  constructor, a virtual destructor, deleted copy constructor and copy
  assignment, and the member `HandleMethodCall` that takes the method call by
  const reference and the result sink as a `std::unique_ptr` passed by value;
  the class declares no non-static data members).
* `windows/flutter_app_updater_plugin_c_api.cpp` — the exported C-API adapter
  `FlutterAppUpdaterPluginCApiRegisterWithRegistrar`, whose entire body is:
  resolve the handle through the process-wide `PluginRegistrarManager` and
  delegate the resolved registrar to
  `FlutterAppUpdaterPlugin::RegisterWithRegistrar`.

The bodies of `RegisterWithRegistrar` and `HandleMethodCall` live in
`windows/flutter_app_updater_plugin.cpp`, which is not among the provided
sources; where a claim depends on them, the definitions below are modelled
from the specification and say so in their doc comments.
-/

/-! ## Shallow embedding of the C++ class declaration

C++ special-member-function rules (implicit declaration, deletion, and
overload-resolution fallback from move to copy) are embedded as executable
functions so that copyability, movability and default-constructibility of the
declared class can be computed.
-/

/-- Declaration state of one special member function of a C++ class:
not declared by the user, user-declared (and usable), or user-declared as
deleted. -/
inductive MemberState
  | notDeclared
  | declared
  | declaredDeleted
deriving DecidableEq, Repr

/-- True when the member is user-declared, whether usable or deleted. -/
def MemberState.userDeclared : MemberState → Bool
  | .notDeclared => false
  | .declared => true
  | .declaredDeleted => true

/-- Shallow embedding of the parts of a C++ class declaration that decide
copy, move and default construction: the declaration state of each special
member function, whether the default constructor is public, whether any other
user-declared constructors exist, and the list of non-static data members. -/
structure CppClassDecl where
  defaultCtor : MemberState
  defaultCtorIsPublic : Bool
  dtor : MemberState
  copyCtor : MemberState
  copyAssign : MemberState
  moveCtor : MemberState
  moveAssign : MemberState
  otherUserDeclaredCtors : Bool
  dataMembers : List String
deriving DecidableEq, Repr

/-- Whether a copy of an object of the class can be constructed.  A
user-declared copy constructor is usable unless deleted; an implicitly
declared one (when none is user-declared) is defined as deleted when a move
constructor or move assignment operator is user-declared. -/
def CppClassDecl.copyConstructible (c : CppClassDecl) : Bool :=
  match c.copyCtor with
  | .declared => true
  | .declaredDeleted => false
  | .notDeclared => !(c.moveCtor.userDeclared || c.moveAssign.userDeclared)

/-- Whether an object of the class can be copy-assigned, by the rules
mirrored from `copyConstructible`. -/
def CppClassDecl.copyAssignable (c : CppClassDecl) : Bool :=
  match c.copyAssign with
  | .declared => true
  | .declaredDeleted => false
  | .notDeclared => !(c.moveCtor.userDeclared || c.moveAssign.userDeclared)

/-- Whether an object of the class can be constructed from an rvalue of the
class.  A user-declared move constructor is usable unless deleted.  When none
is declared, a move constructor is implicitly declared only if the class has
no user-declared copy constructor, copy assignment, move assignment or
destructor; otherwise overload resolution falls back to the copy
constructor, so movability reduces to copyability. -/
def CppClassDecl.moveConstructible (c : CppClassDecl) : Bool :=
  match c.moveCtor with
  | .declared => true
  | .declaredDeleted => false
  | .notDeclared =>
      if !(c.copyCtor.userDeclared || c.copyAssign.userDeclared ||
           c.moveAssign.userDeclared || c.dtor.userDeclared) then
        true
      else
        c.copyConstructible

/-- Whether an object of the class can be assigned from an rvalue.  Analogous
to `moveConstructible`: an implicit move assignment exists only when no copy
constructor, move constructor, copy assignment or destructor is
user-declared; otherwise assignment from an rvalue falls back to copy
assignment. -/
def CppClassDecl.moveAssignable (c : CppClassDecl) : Bool :=
  match c.moveAssign with
  | .declared => true
  | .declaredDeleted => false
  | .notDeclared =>
      if !(c.copyCtor.userDeclared || c.moveCtor.userDeclared ||
           c.copyAssign.userDeclared || c.dtor.userDeclared) then
        true
      else
        c.copyAssignable

/-- Whether an object of the class can be default-constructed.  A
user-declared default constructor is usable unless deleted; an implicit one
is declared only when the class has no user-declared constructor of any
kind. -/
def CppClassDecl.defaultConstructible (c : CppClassDecl) : Bool :=
  match c.defaultCtor with
  | .declared => true
  | .declaredDeleted => false
  | .notDeclared =>
      !(c.copyCtor.userDeclared || c.moveCtor.userDeclared ||
        c.otherUserDeclaredCtors)

/-- Embedding of the declaration of `FlutterAppUpdaterPlugin` in
`windows/flutter_app_updater_plugin.h`: a public user-declared default
constructor (line 15), a virtual destructor (line 17), copy constructor and
copy assignment declared deleted (lines 20-21), no move operations declared,
no other constructors, and no non-static data members anywhere in the class
body. -/
def flutterAppUpdaterPluginDecl : CppClassDecl where
  defaultCtor := .declared
  defaultCtorIsPublic := true
  dtor := .declared
  copyCtor := .declaredDeleted
  copyAssign := .declaredDeleted
  moveCtor := .notDeclared
  moveAssign := .notDeclared
  otherUserDeclaredCtors := false
  dataMembers := []

/-! ## The plugin instance and the dispatch entry point -/

/-- The plugin instance type.  Mirrors the class body of
`FlutterAppUpdaterPlugin` in the header, which declares member functions but
no non-static data members, so the Lean structure has no fields. -/
structure FlutterAppUpdaterPlugin where
deriving DecidableEq, Repr

/-- An incoming method invocation: a method name plus an argument value
(the spec fixes no concrete argument shape, so the argument is kept as an
optional string). -/
structure MethodCall where
  method : String
  arguments : Option String
deriving DecidableEq, Repr

/-- One outcome delivered through the result sink, following the taxonomy of
spec section 7: a success value, a domain error with code and message, or
not-implemented. -/
inductive SinkOutcome
  | success (value : Option String)
  | errorOutcome (code message : String)
  | notImplemented
deriving DecidableEq, Repr

/-- A failure arising inside the domain logic while a method call is
handled. -/
structure DomainFailure where
  code : String
  message : String
deriving DecidableEq, Repr

/-- The result sink for one method call, recording every resolution
delivered through it in order. -/
structure ResultSink where
  resolutions : List SinkOutcome
deriving DecidableEq, Repr

/-- Delivering one outcome through the sink appends it to the record of
resolutions. -/
def ResultSink.resolve (s : ResultSink) (o : SinkOutcome) : ResultSink :=
  ⟨s.resolutions ++ [o]⟩

/-- A result sink on which no resolution has been delivered yet, as handed
to the dispatch entry point with each fresh method call. -/
def freshSink : ResultSink := ⟨[]⟩

/-- Modelled from the spec: the body of
`FlutterAppUpdaterPlugin::HandleMethodCall` lives in
`windows/flutter_app_updater_plugin.cpp`, which is not among the provided
sources (the header only declares it).  Spec sections 4.1 and 7: the domain
logic invoked for a call is an unspecified external collaborator (the
`logic` parameter, which may fail); every invocation resolves the result
sink exactly once with success, error, or not-implemented, and every failure
is reported through the sink as an error rather than propagated past the
entry point — the function is total and returns the instance and the
resolved sink. -/
def FlutterAppUpdaterPlugin.HandleMethodCall (p : FlutterAppUpdaterPlugin)
    (logic : MethodCall → Except DomainFailure SinkOutcome)
    (call : MethodCall) (sink : ResultSink) :
    FlutterAppUpdaterPlugin × ResultSink :=
  match logic call with
  | Except.ok outcome => (p, sink.resolve outcome)
  | Except.error failure =>
      (p, sink.resolve (SinkOutcome.errorOutcome failure.code failure.message))

/-! ## Registration -/

/-- The handler installed on a channel.  The only handler the shim ever
installs is the `HandleMethodCall` dispatch entry point of a particular
plugin instance, which the constructor records. -/
inductive ChannelHandler
  | pluginHandleMethodCall (plugin : FlutterAppUpdaterPlugin)
deriving DecidableEq, Repr

/-- The registration-relevant state of one `PluginRegistrarWindows`: the
channels bound with it (name and installed handler, in order of creation)
and the plugin instances whose ownership it took. -/
structure RegistrarState where
  channels : List (String × ChannelHandler)
  ownedPlugins : List FlutterAppUpdaterPlugin
deriving DecidableEq, Repr

/-- Modelled from the spec: the concrete channel-name string is chosen in
`windows/flutter_app_updater_plugin.cpp`, which is not among the provided
sources; spec section 6 fixes only that it is one fixed string consistent
across the plugin, so it is embedded as this constant. -/
def channelName : String := "flutter_app_updater"

/-- Modelled from the spec: the body of
`FlutterAppUpdaterPlugin::RegisterWithRegistrar` lives in
`windows/flutter_app_updater_plugin.cpp`, which is not among the provided
sources (the header only declares it).  Spec section 4.1: the operation
constructs a plugin instance, creates a channel bound to the fixed channel
name, installs that instance's dispatch entry point as the channel's call
handler, and hands the instance to the registrar; it returns nothing beyond
the updated registrar state. -/
def FlutterAppUpdaterPlugin.RegisterWithRegistrar
    (registrar : RegistrarState) : RegistrarState :=
  let plugin : FlutterAppUpdaterPlugin := {}
  { channels :=
      registrar.channels ++
        [(channelName, ChannelHandler.pluginHandleMethodCall plugin)]
    ownedPlugins := registrar.ownedPlugins ++ [plugin] }

/-! ## The C-API adapter and the registrar manager

`flutter::PluginRegistrarManager` is external framework code; following spec
section 9 it is modelled as a process-wide lookup table keyed by the loader's
registrar handles. -/

/-- Look a handle up in an association list of registrars. -/
def getRegistrarList :
    List (Nat × RegistrarState) → Nat → Option RegistrarState
  | [], _ => none
  | e :: rest, h => if e.1 = h then some e.2 else getRegistrarList rest h

/-- Replace the registrar stored under a handle, leaving every other entry
unchanged. -/
def setRegistrarList :
    List (Nat × RegistrarState) → Nat → RegistrarState →
    List (Nat × RegistrarState)
  | [], _, _ => []
  | e :: rest, h, r =>
      if e.1 = h then (e.1, r) :: setRegistrarList rest h r
      else e :: setRegistrarList rest h r

/-- The process-wide registrar manager: a lookup table from the loader's
handles to the registrars they denote. -/
structure RegistrarManager where
  registrars : List (Nat × RegistrarState)
deriving DecidableEq, Repr

/-- Resolve a handle to the registrar it denotes; `none` when the handle is
not a valid key of the manager. -/
def RegistrarManager.getRegistrar (m : RegistrarManager) (h : Nat) :
    Option RegistrarState :=
  getRegistrarList m.registrars h

/-- Store an updated registrar under a handle. -/
def RegistrarManager.setRegistrar (m : RegistrarManager) (h : Nat)
    (r : RegistrarState) : RegistrarManager :=
  ⟨setRegistrarList m.registrars h r⟩

/-- Embedding of the whole body of
`FlutterAppUpdaterPluginCApiRegisterWithRegistrar` in
`windows/flutter_app_updater_plugin_c_api.cpp` (lines 7-12): a single
expression that resolves the handle through the process-wide registrar
manager and delegates the result to
`FlutterAppUpdaterPlugin::RegisterWithRegistrar`; the registration effect
lands on the registrar the manager stores under the handle.  The source has
no branch for an unresolvable handle, so the result is `none` exactly when
the lookup resolves nothing. -/
def FlutterAppUpdaterPluginCApiRegisterWithRegistrar
    (manager : RegistrarManager) (registrar : Nat) : Option RegistrarManager :=
  (manager.getRegistrar registrar).map fun resolved =>
    manager.setRegistrar registrar
      (FlutterAppUpdaterPlugin.RegisterWithRegistrar resolved)

/-- The spec-side description of the adapter, written from its words: first
resolve the handle to the richer registrar type via the process-wide
registrar-manager lookup, then call `RegisterWithRegistrar` directly on the
resolved registrar, storing the outcome back under the handle. -/
def registerViaResolvedRegistrar (manager : RegistrarManager)
    (handle : Nat) : Option RegistrarManager :=
  match manager.getRegistrar handle with
  | none => none
  | some resolved =>
      some (manager.setRegistrar handle
        (FlutterAppUpdaterPlugin.RegisterWithRegistrar resolved))

/-- Constructing plugin instances needs nothing but the public default
constructor: this makes any number of instances with no registrar in
sight. -/
def mkInstances (n : Nat) : List FlutterAppUpdaterPlugin :=
  List.replicate n {}

/-! ## Ownership transfer of the result sink -/

/-- How a parameter of `HandleMethodCall` is passed, as written in the
header. -/
inductive CppParamPassing
  | byConstRef
  | byValueUniquePtr
deriving DecidableEq, Repr

/-- One declared parameter: its name and how it is passed. -/
structure CppParam where
  name : String
  passing : CppParamPassing
deriving DecidableEq, Repr

/-- Parameter list of `HandleMethodCall` as declared in the header (lines
24-26): the method call by const reference, the result sink as a
`std::unique_ptr` passed by value. -/
def handleMethodCallParams : List CppParam :=
  [⟨"method_call", CppParamPassing.byConstRef⟩,
   ⟨"result", CppParamPassing.byValueUniquePtr⟩]

/-- A uniquely owning slot for a value: `some` while this owner holds it,
`none` after it has been moved from.  Models `std::unique_ptr` ownership. -/
def UniquePtr (α : Type) : Type := Option α

/-- Passing a `unique_ptr` by value moves it into the parameter: the first
component is the caller's slot afterwards (emptied), the second is what the
callee received. -/
def passUniquePtrByValue {α : Type} (caller : UniquePtr α) :
    UniquePtr α × UniquePtr α :=
  (none, caller)

/-- How many of the two slots currently hold the value. -/
def ownerCount {α : Type} (caller callee : UniquePtr α) : Nat :=
  (match caller with | some _ => 1 | none => 0) +
    (match callee with | some _ => 1 | none => 0)

/-! ## Theorems -/

/-- Claim C2: the declaration of `FlutterAppUpdaterPlugin` rejects copy
construction and copy assignment at compile time — both are user-declared as
deleted, so by the embedded C++ rules neither a copy of an instance can be
constructed nor an instance copy-assigned. -/
theorem plugin_not_copyable :
    flutterAppUpdaterPluginDecl.copyCtor = MemberState.declaredDeleted ∧
    flutterAppUpdaterPluginDecl.copyAssign = MemberState.declaredDeleted ∧
    flutterAppUpdaterPluginDecl.copyConstructible = false ∧
    flutterAppUpdaterPluginDecl.copyAssignable = false := by
  refine ⟨rfl, rfl, rfl, rfl⟩

/-- Claim C8: `FlutterAppUpdaterPlugin` is non-movable as well as
non-copyable — no move operations are declared, the user-declared copy
operations and destructor suppress the implicit ones, and the
overload-resolution fallback lands on the deleted copy operations, so by the
embedded C++ rules neither move construction nor move assignment is
available. -/
theorem plugin_not_movable :
    flutterAppUpdaterPluginDecl.moveCtor = MemberState.notDeclared ∧
    flutterAppUpdaterPluginDecl.moveAssign = MemberState.notDeclared ∧
    flutterAppUpdaterPluginDecl.moveConstructible = false ∧
    flutterAppUpdaterPluginDecl.moveAssignable = false := by
  refine ⟨rfl, rfl, rfl, rfl⟩

/-- Claim C10: the one-instance-per-registrar property is not enforced by
the type itself — the declaration has a usable public default constructor,
and for every n, n plugin instances can be constructed with no registrar
involved. -/
theorem plugin_uniqueness_not_type_enforced :
    flutterAppUpdaterPluginDecl.defaultConstructible = true ∧
    flutterAppUpdaterPluginDecl.defaultCtorIsPublic = true ∧
    ∀ n : Nat, (mkInstances n).length = n := by
  refine ⟨rfl, rfl, ?_⟩
  intro n
  simp [mkInstances]

/-- Claim C7: the plugin instance owns no persistent data — the class body
declares no non-static data members, any two instances are equal (no state
distinguishes them), handling a method call returns the instance unchanged,
and the outcome of `HandleMethodCall` is the same whichever instance handles
it, so no plugin-owned mutable resource is shared between invocations. -/
theorem plugin_instance_stateless :
    flutterAppUpdaterPluginDecl.dataMembers = [] ∧
    (∀ p q : FlutterAppUpdaterPlugin, p = q) ∧
    (∀ (p : FlutterAppUpdaterPlugin)
       (logic : MethodCall → Except DomainFailure SinkOutcome)
       (call : MethodCall) (sink : ResultSink),
       (p.HandleMethodCall logic call sink).1 = p) ∧
    (∀ (p q : FlutterAppUpdaterPlugin)
       (logic : MethodCall → Except DomainFailure SinkOutcome)
       (call : MethodCall) (sink : ResultSink),
       p.HandleMethodCall logic call sink =
         q.HandleMethodCall logic call sink) := by
  refine ⟨rfl, ?_, ?_, ?_⟩
  · intro p q
    cases p
    cases q
    rfl
  · intro p logic call sink
    unfold FlutterAppUpdaterPlugin.HandleMethodCall
    cases logic call <;> rfl
  · intro p q logic call sink
    cases p
    cases q
    rfl

/-- Claim C4: every method call delivered to `HandleMethodCall` resolves its
result sink exactly once, whatever the domain logic does — on the fresh sink
handed in with the call, exactly one resolution is recorded afterwards, and
in general each invocation adds exactly one resolution. -/
theorem handle_method_call_resolves_exactly_once :
    ∀ (p : FlutterAppUpdaterPlugin)
      (logic : MethodCall → Except DomainFailure SinkOutcome)
      (call : MethodCall) (sink : ResultSink),
      ((p.HandleMethodCall logic call freshSink).2).resolutions.length = 1 ∧
      ((p.HandleMethodCall logic call sink).2).resolutions.length =
        sink.resolutions.length + 1 := by
  intro p logic call sink
  constructor
  · unfold FlutterAppUpdaterPlugin.HandleMethodCall
    cases logic call <;> rfl
  · unfold FlutterAppUpdaterPlugin.HandleMethodCall
    cases logic call <;> simp [ResultSink.resolve]

/-- Claim C6: every failure arising while a method call is handled is
reported back through the result sink as an error resolution; the dispatch
entry point is a total function into an instance-and-resolved-sink pair, so
no failure propagates past it. -/
theorem handle_method_call_reports_failures_via_sink
    (p : FlutterAppUpdaterPlugin)
    (logic : MethodCall → Except DomainFailure SinkOutcome)
    (call : MethodCall) (sink : ResultSink) (failure : DomainFailure)
    (hfail : logic call = Except.error failure) :
    p.HandleMethodCall logic call sink =
      (p, sink.resolve
        (SinkOutcome.errorOutcome failure.code failure.message)) := by
  unfold FlutterAppUpdaterPlugin.HandleMethodCall
  rw [hfail]

/-- Witness for claim C6, at a concrete failing call: the domain logic fails
with code UNAVAILABLE, and the outcome is exactly the sink resolved with
that error. -/
theorem handle_method_call_reports_failures_via_sink_witness :
    (fun _ : MethodCall =>
        (Except.error ⟨"UNAVAILABLE", "update source unreachable"⟩ :
          Except DomainFailure SinkOutcome)) ⟨"checkForUpdate", none⟩ =
      Except.error ⟨"UNAVAILABLE", "update source unreachable"⟩ ∧
    FlutterAppUpdaterPlugin.HandleMethodCall {}
        (fun _ =>
          Except.error ⟨"UNAVAILABLE", "update source unreachable"⟩)
        ⟨"checkForUpdate", none⟩ freshSink =
      ({}, freshSink.resolve
        (SinkOutcome.errorOutcome "UNAVAILABLE"
          "update source unreachable")) :=
  ⟨rfl,
    handle_method_call_reports_failures_via_sink {} _ _ _ _ rfl⟩

/-- Claim C3: calling `RegisterWithRegistrar` exactly once on a fresh
registrar constructs one plugin instance, creates exactly one channel bound
to the fixed channel name, and installs that instance's `HandleMethodCall`
as the channel's sole call handler; the registrar state afterwards shows
exactly this registration and nothing else. -/
theorem register_with_registrar_binds_one_channel
    (registrar : RegistrarState)
    (hch : registrar.channels = [])
    (hpl : registrar.ownedPlugins = []) :
    (FlutterAppUpdaterPlugin.RegisterWithRegistrar registrar).channels =
      [(channelName, ChannelHandler.pluginHandleMethodCall {})] ∧
    (FlutterAppUpdaterPlugin.RegisterWithRegistrar registrar).ownedPlugins =
      [{}] := by
  unfold FlutterAppUpdaterPlugin.RegisterWithRegistrar
  rw [hch, hpl]
  exact ⟨rfl, rfl⟩

/-- Witness for claim C3, on the concrete fresh registrar: afterwards there
is exactly the one channel, named `channelName`, whose handler is the new
instance's `HandleMethodCall`, and exactly the one owned instance. -/
theorem register_with_registrar_binds_one_channel_witness :
    (⟨[], []⟩ : RegistrarState).channels = [] ∧
    (⟨[], []⟩ : RegistrarState).ownedPlugins = [] ∧
    ((FlutterAppUpdaterPlugin.RegisterWithRegistrar ⟨[], []⟩).channels =
        [(channelName, ChannelHandler.pluginHandleMethodCall {})] ∧
      (FlutterAppUpdaterPlugin.RegisterWithRegistrar
          ⟨[], []⟩).ownedPlugins = [{}]) :=
  ⟨rfl, rfl,
    register_with_registrar_binds_one_channel ⟨[], []⟩ rfl rfl⟩

/-- Updating the entry stored under one handle leaves the lookup of every
other handle unchanged. -/
theorem getRegistrarList_setRegistrarList_ne
    (l : List (Nat × RegistrarState)) (h h2 : Nat) (r : RegistrarState)
    (hne : h2 ≠ h) :
    getRegistrarList (setRegistrarList l h r) h2 = getRegistrarList l h2 := by
  induction l with
  | nil => rfl
  | cons e rest ih =>
      unfold setRegistrarList
      by_cases he : e.1 = h
      · simp only [if_pos he]
        unfold getRegistrarList
        have hno : ¬ e.1 = h2 := by
          rw [he]
          exact fun hh => hne hh.symm
        simp only [if_neg hno]
        exact ih
      · simp only [if_neg he]
        unfold getRegistrarList
        by_cases h2e : e.1 = h2
        · simp only [if_pos h2e]
        · simp only [if_neg h2e]
          exact ih

/-- Claim C1: for every valid handle, the C-API adapter produces exactly the
outcome of resolving the handle through the process-wide registrar-manager
lookup and then calling `RegisterWithRegistrar` directly on the resolved
registrar — the two definitions agree, the adapter's result is precisely the
manager with that one registrar registered, and every other entry of the
manager is untouched. -/
theorem c_api_adapter_is_lookup_then_delegate
    (manager : RegistrarManager) (handle h2 : Nat)
    (resolved : RegistrarState)
    (hvalid : manager.getRegistrar handle = some resolved)
    (hne : h2 ≠ handle) :
    FlutterAppUpdaterPluginCApiRegisterWithRegistrar manager handle =
      registerViaResolvedRegistrar manager handle ∧
    FlutterAppUpdaterPluginCApiRegisterWithRegistrar manager handle =
      some (manager.setRegistrar handle
        (FlutterAppUpdaterPlugin.RegisterWithRegistrar resolved)) ∧
    (manager.setRegistrar handle
        (FlutterAppUpdaterPlugin.RegisterWithRegistrar
          resolved)).getRegistrar h2 =
      manager.getRegistrar h2 := by
  refine ⟨?_, ?_, ?_⟩
  · unfold FlutterAppUpdaterPluginCApiRegisterWithRegistrar
      registerViaResolvedRegistrar
    rw [hvalid]
    rfl
  · unfold FlutterAppUpdaterPluginCApiRegisterWithRegistrar
    rw [hvalid]
    rfl
  · exact getRegistrarList_setRegistrarList_ne _ _ _ _ hne

/-- Witness for claim C1, on a concrete manager holding one fresh registrar
under handle 0: the adapter at handle 0 agrees with resolve-then-delegate,
yields exactly the updated manager, and handle 1 resolves as before. -/
theorem c_api_adapter_is_lookup_then_delegate_witness :
    (RegistrarManager.mk [(0, ⟨[], []⟩)]).getRegistrar 0 = some ⟨[], []⟩ ∧
    (1 : Nat) ≠ 0 ∧
    (FlutterAppUpdaterPluginCApiRegisterWithRegistrar
        ⟨[(0, ⟨[], []⟩)]⟩ 0 =
        registerViaResolvedRegistrar ⟨[(0, ⟨[], []⟩)]⟩ 0 ∧
      FlutterAppUpdaterPluginCApiRegisterWithRegistrar
          ⟨[(0, ⟨[], []⟩)]⟩ 0 =
        some ((⟨[(0, ⟨[], []⟩)]⟩ : RegistrarManager).setRegistrar 0
          (FlutterAppUpdaterPlugin.RegisterWithRegistrar ⟨[], []⟩)) ∧
      ((⟨[(0, ⟨[], []⟩)]⟩ : RegistrarManager).setRegistrar 0
          (FlutterAppUpdaterPlugin.RegisterWithRegistrar
            ⟨[], []⟩)).getRegistrar 1 =
        (⟨[(0, ⟨[], []⟩)]⟩ : RegistrarManager).getRegistrar 1) :=
  ⟨rfl, by decide,
    c_api_adapter_is_lookup_then_delegate ⟨[(0, ⟨[], []⟩)]⟩ 0 1 ⟨[], []⟩
      rfl (by decide)⟩

/-- Claim C9: `HandleMethodCall` takes exclusive ownership of the result
sink — the header passes the sink as a `std::unique_ptr` by value, and under
the embedded move semantics of such a pass the caller's slot is left empty,
the callee holds the sink, and exactly one owner remains. -/
theorem handle_method_call_sink_ownership_exclusive :
    (handleMethodCallParams.find? (fun p => p.name == "result")).map
        CppParam.passing = some CppParamPassing.byValueUniquePtr ∧
    ∀ (sink : ResultSink),
      (passUniquePtrByValue (some sink)).1 = (none : UniquePtr ResultSink) ∧
      (passUniquePtrByValue (some sink)).2 = some sink ∧
      ownerCount (passUniquePtrByValue (some sink)).1
        (passUniquePtrByValue (some sink)).2 = 1 := by
  refine ⟨rfl, ?_⟩
  intro sink
  exact ⟨rfl, rfl, rfl⟩
